import Mathlib

/-!
# fake-device-plugin: a verification development

A shallow embedding of `pkg/deviceplugin/deviceplugin.go`.

* Strings are Lean strings, Go `int` loop counters are natural numbers (the
  only counter runs over `0 .. MaxDeviceCounts`, far below any overflow).
* Pointers and channels are `Option` handles into an explicit `World`
  (files present on disk, channels with their open/closed status, servers
  with their running/halted status).
* Every call into the operating system, the gRPC library or the logger is
  recorded as an `Event`; the outcome of a call that the program cannot
  control (a dial, a bind, an unlink) is read from an environment record.
* `log.Fatalf` writes the message and then ends the process (`os.Exit(1)`):
  a call that reaches it has the outcome `Outcome.exited`.
* The goroutine that `serve` launches runs `m.server.Serve(sock)` and calls
  `log.Fatalf` when that returns nil, which it does once the server has been
  halted. A halted server therefore leaves a fatal log due on a second
  thread; the point at which it ends the process is read from the
  environment of the call it interrupts.
-/

namespace DevicePlugin

/-! ## Constants and protocol records -/

/-- Constants of the imported `pluginapi` package (`k8s.io/kubelet/.../v1beta1`),
which the repository uses but does not define. -/
structure PluginAPI where
  Version : String
  DevicePluginPath : String
  KubeletSocket : String
  deriving DecidableEq, Repr

/-- The values the constants have in the `v1beta1` device plugin API. -/
def v1beta1 : PluginAPI :=
  { Version := "v1beta1"
    DevicePluginPath := "/var/lib/kubelet/device-plugins/"
    KubeletSocket := "/var/lib/kubelet/device-plugins/kubelet.sock" }

/-- Constant `SocketPath`: `pluginapi.DevicePluginPath` followed by `fake-dev.sock`. -/
def SocketPath (api : PluginAPI) : String := api.DevicePluginPath ++ "fake-dev.sock"

/-- Constant `FakeResourceName`. -/
def FakeResourceName : String := "demo.org/fake-dev"

/-- Constant `MaxDeviceCounts = 115 * 1024`. -/
def MaxDeviceCounts : Nat := 115 * 1024

/-- Health of a device (`pluginapi.Healthy`, `pluginapi.Unhealthy`). -/
inductive Health where
  | Healthy
  | Unhealthy
  deriving DecidableEq, Repr

/-- Record `pluginapi.Device`, restricted to the fields the plugin sets. -/
structure Device where
  ID : String
  Health : Health
  deriving DecidableEq, Repr

/-- Record `pluginapi.ListAndWatchResponse`. -/
structure ListAndWatchResponse where
  Devices : List Device
  deriving DecidableEq, Repr

/-! ## The device list of `ListAndWatch` -/

/-- The call `fmt.Sprintf` with the format `%s-%s-%d` on `a`, `b` and a
non-negative `i`. -/
def Sprintf_s_s_d (a b : String) (i : Nat) : String :=
  a ++ "-" ++ b ++ "-" ++ Nat.repr i

/-- The record appended in iteration `i` of the loop. -/
def fakeDevice (i : Nat) : Device :=
  { ID := Sprintf_s_s_d "vgpu-memory" "1MiB" i, Health := Health.Healthy }

/-- The loop `for ; i < max; i++` that appends one record per round, with
`remaining = max - i` iterations still to run. -/
def appendDevices : (remaining : Nat) → (i : Nat) → List Device → List Device
  | 0, _, fakedevices => fakedevices
  | remaining + 1, i, fakedevices =>
      appendDevices remaining (i + 1) (fakedevices ++ [fakeDevice i])

/-- The slice `fakedevices` after the loop, for a bound `max`:
`make([]*pluginapi.Device, 0)` followed by the loop from `i := 0`. -/
def buildDevices (max : Nat) : List Device := appendDevices max 0 []

/-- The list the claims compare with: position `i` holds the identifier
`"vgpu-memory-1MiB-"` followed by `i` in decimal, and `Healthy`. -/
def referenceDevices (n : Nat) : List Device :=
  (List.range n).map fun i =>
    { ID := "vgpu-memory-1MiB-" ++ Nat.repr i, Health := Health.Healthy }

/-! ## Errors, the world, events -/

/-- Go `error` values, as far as the plugin tells them apart: the only test
it makes is `os.IsNotExist`. -/
inductive Error where
  | notExist
  | other (code : Nat)
  deriving DecidableEq, Repr

/-- The test `os.IsNotExist(err)`. -/
def IsNotExist : Error → Bool
  | Error.notExist => true
  | Error.other _ => false

/-- What lives outside the plugin object: the paths present on the
filesystem, the channels made so far (`true` = open, `false` = closed) and
the gRPC servers made so far (`true` = not halted, `false` = halted by
`m.server.Stop()`: its `Serve` returns nil and the goroutine of `serve` that
waits for it has its `log.Fatalf` due). -/
structure World where
  files : List String
  chans : List Bool
  servers : List Bool
  deriving DecidableEq, Repr

/-- The struct `FakeDevicePlugin`. A nil pointer or nil channel is `none`;
a non-nil one is an index into the `World`. -/
structure FakeDevicePlugin where
  resourceName : String
  socket : String
  server : Option Nat
  stop : Option Nat
  health : Option Nat
  deriving DecidableEq, Repr

/-- Record `pluginapi.DevicePluginOptions`; the empty literal has both unset. -/
structure DevicePluginOptions where
  PreStartRequired : Bool
  GetPreferredAllocationAvailable : Bool
  deriving DecidableEq, Repr

/-- Record `pluginapi.RegisterRequest`; `Options` is a pointer. -/
structure RegisterRequest where
  Version : String
  Endpoint : String
  ResourceName : String
  Options : Option DevicePluginOptions
  deriving DecidableEq, Repr

/-- The calls the plugin makes to its collaborators, in program order. -/
inductive Event where
  | newServer (srv : Nat)
  | makeChan (ch : Nat)
  | osRemove (path : String) (err : Option Error)
  | listen (path : String) (err : Option Error)
  | registerDevicePluginServer (srv : Option Nat)
  | goServe (srv : Option Nat) (path : String)
  | selfDial (addr : String) (err : Option Error)
  | kubeletDial (addr : String) (err : Option Error)
  | connClose (addr : String)
  | registerCall (req : RegisterRequest) (err : Option Error)
  | serverStop (srv : Nat)
  | closeChan (ch : Option Nat)
  | printDevices (len : Nat)
  | send (resp : ListAndWatchResponse) (err : Option Error)
  | logPrintf
  | logFatalf
  | serveFatalf
  deriving DecidableEq, Repr

/-- How a call ends: it returns its `error` result, or `log.Fatalf` ends the
process, or the Go runtime panics. -/
inductive Outcome where
  | returned (err : Option Error)
  | exited
  | panicked
  deriving DecidableEq, Repr

/-- A call's outcome, the receiver and the world it leaves, and its events. -/
structure Result where
  outcome : Outcome
  plugin : Option FakeDevicePlugin
  world : World
  trace : List Event
  deriving DecidableEq, Repr

/-! ## Operating system and library calls -/

/-- The call `os.Remove(path)` on the file list. With a fault (permission denied, ...)
nothing is removed and the error is not a not-exist error; otherwise an
existing path is removed, and a missing one gives a not-exist error. -/
def osRemove (fault : Option Nat) (files : List String) (path : String) :
    List String × Option Error :=
  match fault with
  | some code => (files, some (Error.other code))
  | none =>
    if path ∈ files then (files.filter (fun f => f ≠ path), none)
    else (files, some Error.notExist)

/-- The call `net.Listen` on a unix socket path: fails on a fault or when the path is already
present (address in use); otherwise creates the socket file. -/
def netListen (fault : Option Nat) (files : List String) (path : String) :
    List String × Option Error :=
  match fault with
  | some code => (files, some (Error.other code))
  | none =>
    if path ∈ files then (files, some (Error.other 98))
    else (path :: files, none)

/-- The call `close(ch)`: panics (`none`) on a nil channel and on a channel that is
not open; otherwise marks the channel closed. -/
def closeChannel (chans : List Bool) : Option Nat → Option (List Bool)
  | none => none
  | some ch => if chans.get? ch = some true then some (chans.set ch false) else none

/-- The function `path.Base` of the Go standard library: a dot for the empty
path; trailing slashes stripped; then what follows the last slash; a single
slash if that leaves nothing. -/
def pathBase (p : String) : String :=
  if p.data = [] then "."
  else
    let stripped := (p.data.reverse.dropWhile (fun c => c == '/')).reverse
    let last := (stripped.reverse.takeWhile (fun c => c != '/')).reverse
    if last = [] then "/" else String.mk last

/-! ## Construction and lifecycle -/

/-- The constructor `NewFakeDevicePlugin`: identity set, every handle nil. -/
def NewFakeDevicePlugin (api : PluginAPI) : FakeDevicePlugin :=
  { resourceName := FakeResourceName
    socket := SocketPath api
    server := none
    stop := none
    health := none }

/-- The body of the goroutine of `serve` once `m.server.Serve(sock)` has
returned with `serveErr`: a nil result is logged with `log.Fatalf`, which
ends the process; a non-nil result ends the goroutine silently. -/
def serveGoroutine (serveErr : Option Error) : List Event :=
  match serveErr with
  | none => [Event.serveFatalf]
  | some _ => []

/-- Whether the fatal log of a `serve` goroutine is due: some server has been
halted, so its `Serve` returns nil (the model takes `Serve` to return only
when its server is halted) and the goroutine goes on to `log.Fatalf`. -/
def fatalDue (servers : List Bool) : Bool :=
  decide (false ∈ servers)

/-- Where a due fatal log of a `serve` goroutine ends the process during a
`Start`: before its first statement; after the removal of the stale socket;
or, at the latest, while the control thread is blocked in the self-check
dial, which cannot complete before other goroutines have run. -/
inductive StartStrike where
  | atEntry
  | afterRemove
  | atDial
  deriving DecidableEq, Repr

/-- Where the fatal log of the `serve` goroutine ends the process during a
`Stop` that has halted the server: before the removal of the socket path;
after the removal and before the stop channel is closed (or before the
removal error is returned); after the handles are cleared and before `Stop`
returns; or only after `Stop` has returned. -/
inductive StopStrike where
  | beforeRemove
  | beforeClose
  | beforeReturn
  | afterReturn
  deriving DecidableEq, Repr

/-- Outcomes of the external calls made during one `Start`, and the point at
which a fatal log that is already due strikes. -/
structure StartEnv where
  staleRemove : Option Nat
  listen : Option Nat
  selfDial : Option Error
  kubeletDial : Option Error
  registerCall : Option Error
  strike : StartStrike := StartStrike.atDial
  deriving DecidableEq, Repr

/-- Outcomes of the external calls made during one `Stop`: whether the
server, closing its listener, unlinked the socket file, the fault (if any)
of the plugin's own `os.Remove`, and the point at which the fatal log of the
`serve` goroutine strikes. -/
structure StopEnv where
  closeUnlinks : Bool
  remove : Option Nat
  strike : StopStrike := StopStrike.afterReturn
  deriving DecidableEq, Repr

/-- The method `serve`, as the control thread runs it. The goroutine is
recorded at its launch; its body is `serveGoroutine`, and it takes effect
through `fatalDue` in the `Start` or `Stop` that it interrupts. -/
def serve (env : StartEnv) (m : FakeDevicePlugin) (w : World) :
    Option Error × World × List Event :=
  let r := osRemove env.staleRemove w.files m.socket
  let l := netListen env.listen r.1 m.socket
  let w1 : World := { w with files := l.1 }
  match l.2 with
  | some err =>
      (some err, w1, [Event.osRemove m.socket r.2, Event.listen m.socket (some err)])
  | none =>
    let t := [Event.osRemove m.socket r.2, Event.listen m.socket none,
              Event.registerDevicePluginServer m.server, Event.goServe m.server m.socket]
    match env.selfDial with
    | some err => (some err, w1, t ++ [Event.selfDial m.socket (some err)])
    | none => (none, w1, t ++ [Event.selfDial m.socket none, Event.connClose m.socket])

/-- The request built by `register`. -/
def registerRequest (api : PluginAPI) (m : FakeDevicePlugin) : RegisterRequest :=
  { Version := api.Version
    Endpoint := pathBase m.socket
    ResourceName := m.resourceName
    Options := some { PreStartRequired := false, GetPreferredAllocationAvailable := false } }

/-- The method `register`; the deferred `conn.Close()` runs
on both exits that follow a successful dial. -/
def register (api : PluginAPI) (env : StartEnv) (m : FakeDevicePlugin) :
    Option Error × List Event :=
  match env.kubeletDial with
  | some err => (some err, [Event.kubeletDial api.KubeletSocket (some err)])
  | none =>
    match env.registerCall with
    | some err =>
        (some err, [Event.kubeletDial api.KubeletSocket none,
                    Event.registerCall (registerRequest api m) (some err),
                    Event.connClose api.KubeletSocket])
    | none =>
        (none, [Event.kubeletDial api.KubeletSocket none,
                Event.registerCall (registerRequest api m) none,
                Event.connClose api.KubeletSocket])

/-- The method `Start`. Both error branches call
`log.Fatalf` first, which ends the process: the statements written after it
(`close(m.stop)`, the nil assignments, `m.Stop()`, `return err`) never run. A
nil receiver panics at the first field assignment, after `grpc.NewServer`
has been evaluated. When the fatal log of a `serve` goroutine is due (a
server has been halted), it ends the process during this `Start`, at the
latest while the self-check dial blocks. -/
def Start (api : PluginAPI) (env : StartEnv) (recv : Option FakeDevicePlugin)
    (w : World) : Result :=
  match recv with
  | none =>
      { outcome := Outcome.panicked, plugin := none,
        world := { w with servers := w.servers ++ [true] },
        trace := [Event.newServer w.servers.length] }
  | some m =>
    let srv := w.servers.length
    let ch := w.chans.length
    let m1 : FakeDevicePlugin := { m with server := some srv, stop := some ch }
    let w1 : World := { w with servers := w.servers ++ [true], chans := w.chans ++ [true] }
    let t0 := [Event.newServer srv, Event.makeChan ch]
    if fatalDue w.servers then
      match env.strike with
      | StartStrike.atEntry =>
          { outcome := Outcome.exited, plugin := some m, world := w,
            trace := serveGoroutine none }
      | StartStrike.afterRemove =>
          let r := osRemove env.staleRemove w.files m.socket
          { outcome := Outcome.exited, plugin := some m1, world := { w1 with files := r.1 },
            trace := t0 ++ [Event.osRemove m.socket r.2] ++ serveGoroutine none }
      | StartStrike.atDial =>
          let r := osRemove env.staleRemove w.files m.socket
          let l := netListen env.listen r.1 m.socket
          match l.2 with
          | some err =>
              { outcome := Outcome.exited, plugin := some m1,
                world := { w1 with files := l.1 },
                trace := t0 ++ [Event.osRemove m.socket r.2, Event.listen m.socket (some err),
                                Event.logFatalf] }
          | none =>
              { outcome := Outcome.exited, plugin := some m1,
                world := { w1 with files := l.1 },
                trace := t0 ++ [Event.osRemove m.socket r.2, Event.listen m.socket none,
                                Event.registerDevicePluginServer m1.server,
                                Event.goServe m1.server m.socket] ++ serveGoroutine none }
    else
      match serve env m1 w1 with
      | (some _, w2, t1) =>
          { outcome := Outcome.exited, plugin := some m1, world := w2,
            trace := t0 ++ t1 ++ [Event.logFatalf] }
      | (none, w2, t1) =>
        match register api env m1 with
        | (some _, t2) =>
            { outcome := Outcome.exited, plugin := some m1, world := w2,
              trace := t0 ++ t1 ++ [Event.logPrintf] ++ t2 ++ [Event.logFatalf] }
        | (none, t2) =>
            { outcome := Outcome.returned none, plugin := some m1, world := w2,
              trace := t0 ++ t1 ++ [Event.logPrintf] ++ t2 ++ [Event.logPrintf] }

/-- The method `Stop`. A nil receiver or a nil server handle returns nil at
once. Otherwise the server is halted (closing its listener, which may unlink
the socket file), the socket path is removed, and an error of the removal
other than not-exist is returned before the stop channel is closed and the
handles are cleared. Halting the server makes the fatal log of its `serve`
goroutine due; it ends the process at the point `env.strike` names, racing
with the rest of `Stop`. -/
def Stop (env : StopEnv) (recv : Option FakeDevicePlugin) (w : World) : Result :=
  match recv with
  | none => { outcome := Outcome.returned none, plugin := none, world := w, trace := [] }
  | some m =>
    match m.server with
    | none => { outcome := Outcome.returned none, plugin := some m, world := w, trace := [] }
    | some srv =>
      let servers1 := w.servers.set srv false
      let due := fatalDue servers1
      let files1 :=
        if env.closeUnlinks then w.files.filter (fun f => f ≠ m.socket) else w.files
      let t0 := [Event.logPrintf, Event.serverStop srv]
      if due && env.strike == StopStrike.beforeRemove then
        { outcome := Outcome.exited, plugin := some m,
          world := { w with servers := servers1, files := files1 },
          trace := t0 ++ serveGoroutine none }
      else
        let r := osRemove env.remove files1 m.socket
        let w1 : World := { w with servers := servers1, files := r.1 }
        let t := t0 ++ [Event.osRemove m.socket r.2]
        match r.2.filter (fun err => !IsNotExist err) with
        | some err =>
            if due && env.strike != StopStrike.afterReturn then
              { outcome := Outcome.exited, plugin := some m, world := w1,
                trace := t ++ serveGoroutine none }
            else
              { outcome := Outcome.returned (some err), plugin := some m, world := w1,
                trace := t }
        | none =>
          if due && env.strike == StopStrike.beforeClose then
            { outcome := Outcome.exited, plugin := some m, world := w1,
              trace := t ++ serveGoroutine none }
          else
            match closeChannel w1.chans m.stop with
            | none => { outcome := Outcome.panicked, plugin := some m, world := w1, trace := t }
            | some chans1 =>
                if due && env.strike == StopStrike.beforeReturn then
                  { outcome := Outcome.exited,
                    plugin := some { m with server := none, stop := none },
                    world := { w1 with chans := chans1 },
                    trace := t ++ [Event.closeChan m.stop] ++ serveGoroutine none }
                else
                  { outcome := Outcome.returned none,
                    plugin := some { m with server := none, stop := none },
                    world := { w1 with chans := chans1 },
                    trace := t ++ [Event.closeChan m.stop] }

/-! ## The stream handler -/

/-- Record `pluginapi.Empty`. -/
structure Empty where
  deriving DecidableEq, Repr

/-- Where a `ListAndWatch` invocation stands: not yet run; at the top of the
`for` loop; inside `select`, waiting on the channel values it read from
`m.stop` and `m.health` when it entered the statement; returned; or ended
with the process by `log.Fatalf`. -/
inductive LWState where
  | entry
  | loop
  | parked (stop health : Option Nat)
  | returned (err : Option Error)
  | exited
  deriving DecidableEq, Repr

/-- What the handler cannot control: the result of `srv.Send`, and which
case `select` takes when both are ready. -/
structure LWEnv where
  sendErr : Option Error
  pickStop : Bool
  deriving DecidableEq, Repr

/-- Whether a receive from the channel can proceed. A nil channel never
can. Nothing in the program sends on either channel, so a channel is ready
exactly when it has been closed. -/
def chanReady (w : World) : Option Nat → Bool
  | none => false
  | some ch => w.chans.get? ch == some false

/-- One step of `ListAndWatch(req, srv)` against the current plugin fields
and world, with the events of the step. -/
def lwStep (env : LWEnv) (m : FakeDevicePlugin) (_req : Option Empty) (w : World) :
    LWState → LWState × List Event
  | LWState.entry =>
      let fakedevices := buildDevices MaxDeviceCounts
      let resp : ListAndWatchResponse := { Devices := fakedevices }
      match env.sendErr with
      | some err =>
          (LWState.exited,
            [Event.printDevices fakedevices.length, Event.send resp (some err), Event.logFatalf])
      | none =>
          (LWState.loop, [Event.printDevices fakedevices.length, Event.send resp none])
  | LWState.loop => (LWState.parked m.stop m.health, [])
  | LWState.parked stop health =>
      match chanReady w stop, chanReady w health with
      | true, true => if env.pickStop then (LWState.returned none, []) else (LWState.loop, [])
      | true, false => (LWState.returned none, [])
      | false, true => (LWState.loop, [])
      | false, false => (LWState.parked stop health, [])
  | LWState.returned err => (LWState.returned err, [])
  | LWState.exited => (LWState.exited, [])

/-- Run the handler for one step per snapshot: the control thread may change
the plugin fields and the world between two steps of the handler, so each
step sees its own snapshot of both. The events are collected in order. -/
def lwRun (env : LWEnv) (req : Option Empty) :
    List (FakeDevicePlugin × World) → LWState → LWState × List Event
  | [], s => (s, [])
  | snap :: rest, s =>
      let r := lwStep env snap.1 req snap.2 s
      let r2 := lwRun env req rest r.1
      (r2.1, r.2 ++ r2.2)

/-- The device sequences an event list pushes to the consumer: the
arguments of the `srv.Send` calls. -/
def pushed : List Event → List (List Device)
  | [] => []
  | Event.send resp _ :: rest => resp.Devices :: pushed rest
  | _ :: rest => pushed rest

/-! ## Sequences of lifecycle calls on one control thread -/

/-- A lifecycle call with the outcomes of its external calls, or a turn of
the scheduler between two calls in which a `serve` goroutine whose fatal log
is due runs it. -/
inductive Call where
  | start (env : StartEnv)
  | stop (env : StopEnv)
  | serveFatal
  deriving DecidableEq, Repr

/-- The process: running with a plugin and a world, ended by `log.Fatalf`,
or crashed by a panic. -/
inductive Proc where
  | running (m : Option FakeDevicePlugin) (w : World)
  | exited
  | panicked
  deriving DecidableEq, Repr

/-- The process after a call's result. -/
def Proc.after (r : Result) : Proc :=
  match r.outcome with
  | Outcome.returned _ => Proc.running r.plugin r.world
  | Outcome.exited => Proc.exited
  | Outcome.panicked => Proc.panicked

/-- One call; a process that has ended stays ended. -/
def exec (api : PluginAPI) : Proc → Call → Proc
  | Proc.running m w, Call.start env => Proc.after (Start api env m w)
  | Proc.running m w, Call.stop env => Proc.after (Stop env m w)
  | Proc.running m w, Call.serveFatal =>
      if fatalDue w.servers then Proc.exited else Proc.running m w
  | Proc.exited, _ => Proc.exited
  | Proc.panicked, _ => Proc.panicked

/-- A sequence of calls. -/
def execAll (api : PluginAPI) (p : Proc) (calls : List Call) : Proc :=
  calls.foldl (exec api) p

/-- The events that the registration client produces: the dial of the
resource manager and the `Register` call. -/
def Event.isRegistration : Event → Bool
  | Event.kubeletDial _ _ => true
  | Event.registerCall _ _ => true
  | _ => false

/-- The requests sent by the `Register` calls of an event list. -/
def requestsSent : List Event → List RegisterRequest
  | [] => []
  | Event.registerCall req _ :: rest => req :: requestsSent rest
  | _ :: rest => requestsSent rest

/-- The lifecycle invariant: the server handle is nil exactly when the stop
channel is nil, and a stop channel the plugin holds is open. -/
def Inv (m : FakeDevicePlugin) (w : World) : Prop :=
  (m.server = none ↔ m.stop = none) ∧ ∀ ch, m.stop = some ch → w.chans.get? ch = some true

/-- A process state in which the invariant holds: a process ended by
`log.Fatalf` has no state left to constrain; a panic is excluded. -/
def Proc.Good : Proc → Prop
  | Proc.running (some m) w => Inv m w
  | Proc.running none _ => False
  | Proc.exited => True
  | Proc.panicked => False

/-- Every external call of a `Start` succeeds. -/
def startOk : StartEnv :=
  { staleRemove := none, listen := none, selfDial := none, kubeletDial := none,
    registerCall := none }

/-- A world with no files, channels or servers. -/
def emptyWorld : World := { files := [], chans := [], servers := [] }

/-- The constructed plugin after a `Start` in the empty world in which every
call succeeded. -/
def startedPlugin : FakeDevicePlugin :=
  { NewFakeDevicePlugin v1beta1 with server := some 0, stop := some 0 }

/-- The world after that `Start`. -/
def startedWorld : World :=
  { files := [SocketPath v1beta1], chans := [true], servers := [true] }

/-! ## Reading a decimal rendering back -/

/-- Value of a decimal digit character. -/
def digitValue (c : Char) : Nat := c.toNat - 48

/-- Reads a list of decimal digit characters, most significant first. -/
def ofDigitChars (l : List Char) : Nat :=
  l.foldl (fun acc c => acc * 10 + digitValue c) 0

/-! # Theorems -/

/-! ## Decimal rendering -/

theorem digitValue_digitChar : ∀ d, d < 10 → digitValue (Nat.digitChar d) = d := by
  decide

theorem foldl_toDigitsCore (fuel : Nat) : ∀ (n : Nat) (ds : List Char), n < fuel →
    (Nat.toDigitsCore 10 fuel n ds).foldl (fun acc c => acc * 10 + digitValue c) 0
      = ds.foldl (fun acc c => acc * 10 + digitValue c) n := by
  induction fuel with
  | zero => intro n ds h; omega
  | succ fuel ih =>
    intro n ds h
    have hd : digitValue (Nat.digitChar (n % 10)) = n % 10 :=
      digitValue_digitChar _ (Nat.mod_lt _ (by decide))
    simp only [Nat.toDigitsCore]
    split
    · simp only [List.foldl_cons, hd]
      congr 1
      omega
    · rw [ih (n / 10) _ (by omega)]
      simp only [List.foldl_cons, hd]
      congr 1
      omega

theorem ofDigitChars_toDigits (n : Nat) : ofDigitChars (Nat.toDigits 10 n) = n := by
  unfold ofDigitChars Nat.toDigits
  rw [foldl_toDigitsCore _ _ _ (Nat.lt_succ_self n)]
  rfl

theorem repr_injective {i j : Nat} (h : Nat.repr i = Nat.repr j) : i = j := by
  have h1 : Nat.toDigits 10 i = Nat.toDigits 10 j := by
    have := congrArg String.data h
    simpa [Nat.repr, List.asString] using this
  have := congrArg ofDigitChars h1
  simpa [ofDigitChars_toDigits] using this

theorem append_left_cancel (p a b : String) (h : p ++ a = p ++ b) : a = b := by
  have := congrArg String.data h
  simp only [String.data_append, List.append_cancel_left_eq] at this
  exact String.ext this

/-! ## The device list -/

theorem fakeDevice_eq (i : Nat) :
    fakeDevice i = { ID := "vgpu-memory-1MiB-" ++ Nat.repr i, Health := Health.Healthy } := by
  have h : "vgpu-memory" ++ "-" ++ "1MiB" ++ "-" = "vgpu-memory-1MiB-" := by decide
  simp only [fakeDevice, Sprintf_s_s_d, h]

theorem appendDevices_eq (remaining : Nat) : ∀ (i : Nat) (acc : List Device),
    appendDevices remaining i acc = acc ++ (List.range' i remaining).map fakeDevice := by
  induction remaining with
  | zero => intro i acc; simp [appendDevices]
  | succ k ih =>
    intro i acc
    simp [appendDevices, ih, List.range'_succ]

theorem buildDevices_eq_map (n : Nat) : buildDevices n = (List.range n).map fakeDevice := by
  simp [buildDevices, appendDevices_eq, List.range_eq_range']

theorem buildDevices_eq_reference (n : Nat) : buildDevices n = referenceDevices n := by
  rw [buildDevices_eq_map, referenceDevices]
  apply List.map_congr_left
  intro i _
  exact fakeDevice_eq i

theorem buildDevices_length (n : Nat) : (buildDevices n).length = n := by
  simp [buildDevices_eq_map]

theorem buildDevices_get? (n i : Nat) (h : i < n) :
    (buildDevices n).get? i = some (fakeDevice i) := by
  simp [buildDevices_eq_map, List.getElem?_range h]

theorem lwStep_entry_pushed (env : LWEnv) (m : FakeDevicePlugin) (req : Option Empty)
    (w : World) :
    pushed (lwStep env m req w LWState.entry).2 = [buildDevices MaxDeviceCounts] := by
  cases h : env.sendErr <;> simp [lwStep, pushed, h]


theorem lwStep_not_entry (env : LWEnv) (m : FakeDevicePlugin) (req : Option Empty)
    (w : World) (s : LWState) (hs : s ≠ LWState.entry) :
    (lwStep env m req w s).1 ≠ LWState.entry ∧ (lwStep env m req w s).2 = [] := by
  cases s with
  | entry => exact absurd rfl hs
  | loop => simp [lwStep]
  | parked stop health =>
    simp only [lwStep]
    cases chanReady w stop <;> cases chanReady w health <;> cases env.pickStop <;> simp
  | returned err => simp [lwStep]
  | exited => simp [lwStep]

theorem lwRun_not_entry (env : LWEnv) (req : Option Empty)
    (snaps : List (FakeDevicePlugin × World)) :
    ∀ s, s ≠ LWState.entry → (lwRun env req snaps s).2 = [] := by
  induction snaps with
  | nil => intro s _; rfl
  | cons snap rest ih =>
    intro s hs
    have h := lwStep_not_entry env snap.1 req snap.2 s hs
    simp [lwRun, h.2, ih _ h.1]

theorem lwRun_entry_pushed (env : LWEnv) (req : Option Empty) (snap : FakeDevicePlugin × World)
    (rest : List (FakeDevicePlugin × World)) :
    pushed (lwRun env req (snap :: rest) LWState.entry).2 = [buildDevices MaxDeviceCounts] := by
  have hne : (lwStep env snap.1 req snap.2 LWState.entry).1 ≠ LWState.entry := by
    cases h : env.sendErr <;> simp [lwStep, h]
  simp only [lwRun, lwRun_not_entry env req rest _ hne, List.append_nil]
  exact lwStep_entry_pushed env snap.1 req snap.2

/-- C1: whatever the plugin fields, the request, the outcome of the send and
the world are, a `ListAndWatch` invocation pushes exactly one device
sequence, and it is the reference list of length `MaxDeviceCounts = 117760`
whose position `i` holds the identifier `vgpu-memory-1MiB-` followed by `i`
in decimal with health `Healthy`; the loop builds the reference list for
every bound (for bound 3: the identifiers ending in 0, 1, 2); any two
invocations push the same sequence. -/
theorem ListAndWatch_pushes_reference_list (env : LWEnv) (req : Option Empty)
    (snap : FakeDevicePlugin × World) (rest : List (FakeDevicePlugin × World)) :
    pushed (lwRun env req (snap :: rest) LWState.entry).2 = [referenceDevices MaxDeviceCounts]
    ∧ MaxDeviceCounts = 117760
    ∧ (referenceDevices MaxDeviceCounts).length = MaxDeviceCounts
    ∧ (∀ i : Fin MaxDeviceCounts,
        (referenceDevices MaxDeviceCounts).get? i.val
          = some { ID := "vgpu-memory-1MiB-" ++ Nat.repr i.val, Health := Health.Healthy })
    ∧ (∀ n, buildDevices n = referenceDevices n)
    ∧ buildDevices 3 = [{ ID := "vgpu-memory-1MiB-0", Health := Health.Healthy },
                        { ID := "vgpu-memory-1MiB-1", Health := Health.Healthy },
                        { ID := "vgpu-memory-1MiB-2", Health := Health.Healthy }]
    ∧ ∀ (env2 : LWEnv) (req2 : Option Empty) (snap2 : FakeDevicePlugin × World)
        (rest2 : List (FakeDevicePlugin × World)),
        pushed (lwRun env2 req2 (snap2 :: rest2) LWState.entry).2
          = pushed (lwRun env req (snap :: rest) LWState.entry).2 := by
  refine ⟨?_, by decide, ?_, ?_, buildDevices_eq_reference, by decide, ?_⟩
  · rw [lwRun_entry_pushed, buildDevices_eq_reference]
  · rw [← buildDevices_eq_reference, buildDevices_length]
  · intro i
    rw [← buildDevices_eq_reference, buildDevices_get? _ _ i.isLt, fakeDevice_eq]
  · intro env2 req2 snap2 rest2
    rw [lwRun_entry_pushed, lwRun_entry_pushed]

/-- C2: the sequence a `ListAndWatch` invocation pushes has exactly
`MaxDeviceCounts` records, and for positions `i < j < MaxDeviceCounts` the
records at `i` and `j` exist, carry `vgpu-memory-1MiB-` followed by the
decimal rendering of their position, and have different identifiers; the
rendering after the prefix is injective. -/
theorem ListAndWatch_identifiers_unique (env : LWEnv) (req : Option Empty)
    (snap : FakeDevicePlugin × World) (rest : List (FakeDevicePlugin × World))
    (i j : Nat) (hij : i < j) (hj : j < MaxDeviceCounts) :
    pushed (lwRun env req (snap :: rest) LWState.entry).2 = [buildDevices MaxDeviceCounts]
    ∧ (buildDevices MaxDeviceCounts).length = MaxDeviceCounts
    ∧ (∃ a b, (buildDevices MaxDeviceCounts).get? i = some a
        ∧ (buildDevices MaxDeviceCounts).get? j = some b
        ∧ a.ID = "vgpu-memory-1MiB-" ++ Nat.repr i
        ∧ b.ID = "vgpu-memory-1MiB-" ++ Nat.repr j
        ∧ a.ID ≠ b.ID)
    ∧ (∀ k l : Nat, "vgpu-memory-1MiB-" ++ Nat.repr k = "vgpu-memory-1MiB-" ++ Nat.repr l
        → k = l) := by
  have hinj : ∀ k l : Nat,
      "vgpu-memory-1MiB-" ++ Nat.repr k = "vgpu-memory-1MiB-" ++ Nat.repr l → k = l :=
    fun k l h => repr_injective (append_left_cancel _ _ _ h)
  refine ⟨lwRun_entry_pushed env req snap rest, buildDevices_length _, ?_, hinj⟩
  refine ⟨fakeDevice i, fakeDevice j, buildDevices_get? _ _ (by omega),
    buildDevices_get? _ _ hj, ?_, ?_, ?_⟩
  · rw [fakeDevice_eq]
  · rw [fakeDevice_eq]
  · rw [fakeDevice_eq, fakeDevice_eq]
    intro h
    exact absurd (hinj i j h) (by omega)

/-- Witness for C2 at positions 0 and 1 of a fresh plugin's stream. -/
theorem ListAndWatch_identifiers_unique_witness :
    (0 < 1 ∧ 1 < MaxDeviceCounts)
    ∧ (pushed (lwRun { sendErr := none, pickStop := true } none
          [(NewFakeDevicePlugin v1beta1, emptyWorld)] LWState.entry).2
        = [buildDevices MaxDeviceCounts]
      ∧ (buildDevices MaxDeviceCounts).length = MaxDeviceCounts
      ∧ (∃ a b, (buildDevices MaxDeviceCounts).get? 0 = some a
          ∧ (buildDevices MaxDeviceCounts).get? 1 = some b
          ∧ a.ID = "vgpu-memory-1MiB-" ++ Nat.repr 0
          ∧ b.ID = "vgpu-memory-1MiB-" ++ Nat.repr 1
          ∧ a.ID ≠ b.ID)
      ∧ (∀ k l : Nat, "vgpu-memory-1MiB-" ++ Nat.repr k = "vgpu-memory-1MiB-" ++ Nat.repr l
          → k = l)) :=
  ⟨⟨by decide, by decide⟩,
    ListAndWatch_identifiers_unique { sendErr := none, pickStop := true } none
      (NewFakeDevicePlugin v1beta1, emptyWorld) [] 0 1 (by decide) (by decide)⟩

/-! ## Lifecycle lemmas -/

theorem netListen_ok (fault : Option Nat) (files : List String) (path : String)
    (h : (netListen fault files path).2 = none) :
    (netListen fault files path).1 = path :: files ∧ fault = none ∧ path ∉ files := by
  unfold netListen at h ⊢
  cases fault with
  | some code => simp at h
  | none =>
    by_cases hp : path ∈ files
    · simp [hp] at h
    · simp [hp]

theorem serve_chans_servers (env : StartEnv) (m : FakeDevicePlugin) (w : World) :
    (serve env m w).2.1.chans = w.chans ∧ (serve env m w).2.1.servers = w.servers := by
  simp only [serve]
  split
  · simp
  · split <;> simp

theorem serve_ok (env : StartEnv) (m : FakeDevicePlugin) (w : World)
    (h : (serve env m w).1 = none) :
    m.socket ∈ (serve env m w).2.1.files ∧ env.selfDial = none ∧ env.listen = none := by
  simp only [serve] at h ⊢
  split at h
  · simp at h
  · rename_i hl
    have hk := netListen_ok _ _ _ hl
    split at h
    · simp at h
    · rename_i hd
      refine ⟨?_, hd, hk.2.1⟩
      simp only [hl, hd]
      rw [hk.1]
      simp

theorem Start_due (api : PluginAPI) (env : StartEnv) (m : FakeDevicePlugin) (w : World)
    (hdue : fatalDue w.servers = true) :
    (Start api env (some m) w).outcome = Outcome.exited
    ∧ ∀ e ∈ (Start api env (some m) w).trace, e.isRegistration = false := by
  simp only [Start, hdue, if_true]
  cases env.strike with
  | atEntry => simp [serveGoroutine, Event.isRegistration]
  | afterRemove => simp [serveGoroutine, Event.isRegistration]
  | atDial =>
    simp only
    split <;> simp [serveGoroutine, Event.isRegistration]

/-- The plugin fields after the two assignments that open `Start`. -/
theorem Start_returned (api : PluginAPI) (env : StartEnv) (m : FakeDevicePlugin) (w : World)
    (h : (Start api env (some m) w).outcome = Outcome.returned none) :
    (Start api env (some m) w).plugin
        = some { m with server := some w.servers.length, stop := some w.chans.length }
    ∧ m.socket ∈ (Start api env (some m) w).world.files
    ∧ (Start api env (some m) w).world.chans = w.chans ++ [true]
    ∧ (Start api env (some m) w).world.servers = w.servers ++ [true]
    ∧ env.listen = none ∧ env.selfDial = none ∧ env.kubeletDial = none
    ∧ env.registerCall = none ∧ fatalDue w.servers = false := by
  cases hdue : fatalDue w.servers with
  | true =>
    rw [(Start_due api env m w hdue).1] at h
    simp at h
  | false =>
  simp only [Start, hdue, Bool.false_eq_true, if_false] at h ⊢
  have hcs := serve_chans_servers env
    { m with server := some w.servers.length, stop := some w.chans.length }
    { w with servers := w.servers ++ [true], chans := w.chans ++ [true] }
  split at h
  · simp at h
  · rename_i hserve
    have hok := serve_ok env
      { m with server := some w.servers.length, stop := some w.chans.length }
      { w with servers := w.servers ++ [true], chans := w.chans ++ [true] }
      (by rw [hserve])
    rw [hserve] at hcs hok
    split at h
    · simp at h
    · rename_i hreg
      have hr : env.kubeletDial = none ∧ env.registerCall = none := by
        simp only [register] at hreg
        split at hreg
        · simp at hreg
        · split at hreg
          · simp at hreg
          · constructor <;> assumption
      simp only [hserve, hreg]
      exact ⟨trivial, hok.1, hcs.1, hcs.2, hok.2.2, hok.2.1, hr.1, hr.2, trivial⟩

theorem osRemove_no_fault (files : List String) (path : String) :
    path ∉ (osRemove none files path).1
    ∧ (osRemove none files path).2.filter (fun err => !IsNotExist err) = none := by
  unfold osRemove
  by_cases hp : path ∈ files
  · simp [hp]
  · simp [hp, IsNotExist]

theorem osRemove_fault (code : Nat) (files : List String) (path : String) :
    osRemove (some code) files path = (files, some (Error.other code)) := rfl

/-- What `Stop` does on a plugin whose server handle is set and whose stop
channel is open: it returns nil with the socket path absent, the stop
channel closed and both handles cleared; or the removal faults and it
returns that error with the handles kept; or the fatal log of the `serve`
goroutine, due once the server is halted, ends the process first. -/
theorem Stop_started (env : StopEnv) (m : FakeDevicePlugin) (w : World) (srv ch : Nat)
    (hs : m.server = some srv) (hc : m.stop = some ch) (ho : w.chans.get? ch = some true) :
    (env.remove = none
      ∧ (Stop env (some m) w).outcome = Outcome.returned none
      ∧ (Stop env (some m) w).plugin = some { m with server := none, stop := none }
      ∧ m.socket ∉ (Stop env (some m) w).world.files
      ∧ (Stop env (some m) w).world.chans = w.chans.set ch false
      ∧ (Stop env (some m) w).world.servers = w.servers.set srv false
      ∧ (fatalDue (w.servers.set srv false) = false ∨ env.strike = StopStrike.afterReturn))
    ∨ (∃ code, env.remove = some code
      ∧ (Stop env (some m) w).outcome = Outcome.returned (some (Error.other code))
      ∧ (Stop env (some m) w).plugin = some m
      ∧ (Stop env (some m) w).world.chans = w.chans
      ∧ (Stop env (some m) w).world.servers = w.servers.set srv false
      ∧ (fatalDue (w.servers.set srv false) = false ∨ env.strike = StopStrike.afterReturn))
    ∨ ((Stop env (some m) w).outcome = Outcome.exited
      ∧ fatalDue (w.servers.set srv false) = true
      ∧ env.strike ≠ StopStrike.afterReturn) := by
  have h1 := osRemove_no_fault
    (if env.closeUnlinks then w.files.filter (fun f => f ≠ m.socket) else w.files) m.socket
  cases hr : env.remove with
  | none =>
    cases hdue : fatalDue (w.servers.set srv false) <;> cases hk : env.strike
      <;> simp only [Stop, hs, hr, hk, hdue, h1.2, closeChannel, hc, ho, Bool.false_and,
        Bool.true_and, beq_iff_eq, reduceCtorEq, if_true, if_false, Bool.false_eq_true]
      <;> simp only [ne_eq, decide_not] at h1
      <;> simp [h1.1]
  | some code =>
    cases hdue : fatalDue (w.servers.set srv false) <;> cases hk : env.strike
      <;> simp [Stop, hs, hr, hk, hdue, osRemove_fault, Option.filter, IsNotExist]

/-- Where the socket file is after a `Stop` on a plugin whose server handle
is set and whose stop channel is open: it is still there exactly when it was
there before, the listener close did not unlink it, and either the process
was ended before the removal step or the removal step faulted. -/
theorem Stop_started_files (env : StopEnv) (m : FakeDevicePlugin) (w : World) (srv ch : Nat)
    (hs : m.server = some srv) (hc : m.stop = some ch) (ho : w.chans.get? ch = some true) :
    m.socket ∈ (Stop env (some m) w).world.files
      ↔ (m.socket ∈ w.files ∧ env.closeUnlinks = false
          ∧ ((fatalDue (w.servers.set srv false) = true
                ∧ env.strike = StopStrike.beforeRemove)
              ∨ env.remove ≠ none)) := by
  have h1 := osRemove_no_fault
    (if env.closeUnlinks then w.files.filter (fun f => f ≠ m.socket) else w.files) m.socket
  have h2 : m.socket ∉ w.files.filter (fun f => f ≠ m.socket) := by simp
  cases hr : env.remove with
  | none =>
    cases hdue : fatalDue (w.servers.set srv false) <;> cases hk : env.strike
      <;> cases hu : env.closeUnlinks
      <;> simp only [hu, Bool.false_eq_true, if_true, if_false] at h1
      <;> simp only [Stop, hs, hr, hk, hdue, hu, h1.2, closeChannel, hc, ho, Bool.false_and,
        Bool.true_and, beq_iff_eq, reduceCtorEq, if_true, if_false, Bool.false_eq_true]
      <;> (try simp only [ne_eq, decide_not] at h1)
      <;> simp [h1.1]
  | some code =>
    cases hdue : fatalDue (w.servers.set srv false) <;> cases hk : env.strike
      <;> cases hu : env.closeUnlinks
      <;> simp [Stop, hs, hr, hk, hdue, hu, osRemove_fault, Option.filter, IsNotExist]

theorem Start_no_error (api : PluginAPI) (env : StartEnv) (recv : Option FakeDevicePlugin)
    (w : World) (e : Error) : (Start api env recv w).outcome ≠ Outcome.returned (some e) := by
  cases recv with
  | none => simp [Start]
  | some m =>
    cases hdue : fatalDue w.servers with
    | true =>
      rw [(Start_due api env m w hdue).1]
      simp
    | false =>
      simp only [Start, hdue, Bool.false_eq_true, if_false]
      split
      · simp
      · split <;> simp

theorem Start_not_panicked (api : PluginAPI) (env : StartEnv) (m : FakeDevicePlugin)
    (w : World) : (Start api env (some m) w).outcome ≠ Outcome.panicked := by
  cases hdue : fatalDue w.servers with
  | true =>
    rw [(Start_due api env m w hdue).1]
    simp
  | false =>
    simp only [Start, hdue, Bool.false_eq_true, if_false]
    split
    · simp
    · split <;> simp

theorem Start_exited_of_fault (api : PluginAPI) (env : StartEnv) (m : FakeDevicePlugin)
    (w : World)
    (h : env.selfDial ≠ none ∨ env.kubeletDial ≠ none ∨ env.registerCall ≠ none) :
    (Start api env (some m) w).outcome = Outcome.exited := by
  cases ho : (Start api env (some m) w).outcome with
  | exited => rfl
  | panicked => exact absurd ho (Start_not_panicked api env m w)
  | returned err =>
    cases err with
    | some e => exact absurd ho (Start_no_error api env (some m) w e)
    | none =>
      have := Start_returned api env m w ho
      rcases h with h | h | h
      · exact absurd this.2.2.2.2.2.1 h
      · exact absurd this.2.2.2.2.2.2.1 h
      · exact absurd this.2.2.2.2.2.2.2.1 h

theorem fatalDue_set_last (servers : List Bool) :
    fatalDue ((servers ++ [true]).set servers.length false) = true := by
  simp [fatalDue]

/-- C3, as the code has it: after `Start` has succeeded, an immediately
following `Stop` returns nil, or returns the error of its removal step (an
error other than not-exist), or the process is ended by the fatal log of
the `serve` goroutine, which halting the server makes due. It returns nil
exactly when the removal step meets no fault and the fatal log strikes only
after the return, and then no file is left at the socket path. The file is
still there exactly when the listener close did not unlink it and either
the process was ended before the removal step or the removal step
faulted. -/
theorem Start_then_Stop_socket (api : PluginAPI) (envStart : StartEnv) (envStop : StopEnv)
    (m : FakeDevicePlugin) (w : World)
    (hStart : (Start api envStart (some m) w).outcome = Outcome.returned none) :
    ((Stop envStop (Start api envStart (some m) w).plugin
          (Start api envStart (some m) w).world).outcome = Outcome.returned none
      ∨ (Stop envStop (Start api envStart (some m) w).plugin
          (Start api envStart (some m) w).world).outcome = Outcome.exited
      ∨ ∃ code, envStop.remove = some code
          ∧ (Stop envStop (Start api envStart (some m) w).plugin
              (Start api envStart (some m) w).world).outcome
            = Outcome.returned (some (Error.other code)))
    ∧ ((Stop envStop (Start api envStart (some m) w).plugin
          (Start api envStart (some m) w).world).outcome = Outcome.returned none
        ↔ (envStop.remove = none ∧ envStop.strike = StopStrike.afterReturn))
    ∧ ((Stop envStop (Start api envStart (some m) w).plugin
          (Start api envStart (some m) w).world).outcome = Outcome.exited
        ↔ envStop.strike ≠ StopStrike.afterReturn)
    ∧ (m.socket ∈ (Stop envStop (Start api envStart (some m) w).plugin
          (Start api envStart (some m) w).world).world.files
        ↔ (envStop.closeUnlinks = false
            ∧ (envStop.strike = StopStrike.beforeRemove ∨ envStop.remove ≠ none)))
    ∧ ((Stop envStop (Start api envStart (some m) w).plugin
          (Start api envStart (some m) w).world).outcome = Outcome.returned none
        → m.socket ∉ (Stop envStop (Start api envStart (some m) w).plugin
            (Start api envStart (some m) w).world).world.files) := by
  have hS := Start_returned api envStart m w hStart
  rw [hS.1]
  have ho : (Start api envStart (some m) w).world.chans.get? w.chans.length = some true := by
    rw [hS.2.2.1]
    simp
  have hdue : fatalDue ((Start api envStart (some m) w).world.servers.set
      w.servers.length false) = true := by
    rw [hS.2.2.2.1]
    exact fatalDue_set_last w.servers
  have hfiles := Stop_started_files envStop
      { m with server := some w.servers.length, stop := some w.chans.length }
      (Start api envStart (some m) w).world w.servers.length w.chans.length rfl rfl ho
  simp only [hdue, true_and, hS.2.1] at hfiles
  refine ⟨?_, ?_, ?_, hfiles, ?_⟩
  all_goals
    rcases Stop_started envStop
        { m with server := some w.servers.length, stop := some w.chans.length }
        (Start api envStart (some m) w).world w.servers.length w.chans.length rfl rfl ho
      with h | ⟨code, h⟩ | h
  · exact Or.inl h.2.1
  · exact Or.inr (Or.inr ⟨code, h.1, h.2.1⟩)
  · exact Or.inr (Or.inl h.1)
  · have hk : envStop.strike = StopStrike.afterReturn := by
      rcases h.2.2.2.2.2.2 with hd | hk
      · rw [hdue] at hd; exact absurd hd (by simp)
      · exact hk
    simp [h.2.1, h.1, hk]
  · simp [h.2.1, h.1]
  · simp [h.1, h.2.2]
  · have hk : envStop.strike = StopStrike.afterReturn := by
      rcases h.2.2.2.2.2.2 with hd | hk
      · rw [hdue] at hd; exact absurd hd (by simp)
      · exact hk
    simp [h.2.1, hk]
  · have hk : envStop.strike = StopStrike.afterReturn := by
      rcases h.2.2.2.2.2 with hd | hk
      · rw [hdue] at hd; exact absurd hd (by simp)
      · exact hk
    simp [h.2.1, hk]
  · simp [h.1, h.2.2]
  · intro _
    exact h.2.2.2.1
  · simp [h.2.1]
  · simp [h.1]

/-- Witness for C3: the constructed plugin, started in an empty world with
every external call succeeding, then stopped with no fault and the fatal log
striking only after the return. -/
theorem Start_then_Stop_socket_witness :
    (Start v1beta1 startOk (some (NewFakeDevicePlugin v1beta1)) emptyWorld).outcome
        = Outcome.returned none
    ∧ (Stop { closeUnlinks := false, remove := none }
          (Start v1beta1 startOk (some (NewFakeDevicePlugin v1beta1)) emptyWorld).plugin
          (Start v1beta1 startOk (some (NewFakeDevicePlugin v1beta1)) emptyWorld).world).outcome
        = Outcome.returned none
    ∧ (NewFakeDevicePlugin v1beta1).socket ∉
        (Stop { closeUnlinks := false, remove := none }
          (Start v1beta1 startOk (some (NewFakeDevicePlugin v1beta1)) emptyWorld).plugin
          (Start v1beta1 startOk (some (NewFakeDevicePlugin v1beta1)) emptyWorld).world).world.files :=
  ⟨by decide, by decide,
    (Start_then_Stop_socket v1beta1 startOk { closeUnlinks := false, remove := none }
      (NewFakeDevicePlugin v1beta1) emptyWorld (by decide)).2.2.2.2 (by decide)⟩

/-- C3 as stated fails: `Start` succeeds, then `Stop` meets a permission
fault (errno 13) in its removal step while the listener did not unlink the
socket either. Wherever the fatal log of the `serve` goroutine strikes, the
socket file is still there; when it strikes only after the return, `Stop`
returns the error. The file also stays when the removal step would succeed
but the process is ended before it. -/
theorem Start_then_Stop_socket_remains :
    (Start v1beta1 startOk (some (NewFakeDevicePlugin v1beta1)) emptyWorld).outcome
        = Outcome.returned none
    ∧ (∀ strike : StopStrike,
        (NewFakeDevicePlugin v1beta1).socket ∈
          (Stop { closeUnlinks := false, remove := some 13, strike := strike }
            (Start v1beta1 startOk (some (NewFakeDevicePlugin v1beta1)) emptyWorld).plugin
            (Start v1beta1 startOk (some (NewFakeDevicePlugin v1beta1)) emptyWorld).world).world.files)
    ∧ (Stop { closeUnlinks := false, remove := some 13 }
          (Start v1beta1 startOk (some (NewFakeDevicePlugin v1beta1)) emptyWorld).plugin
          (Start v1beta1 startOk (some (NewFakeDevicePlugin v1beta1)) emptyWorld).world).outcome
        = Outcome.returned (some (Error.other 13))
    ∧ (NewFakeDevicePlugin v1beta1).socket ∈
        (Stop { closeUnlinks := false, remove := none, strike := StopStrike.beforeRemove }
          (Start v1beta1 startOk (some (NewFakeDevicePlugin v1beta1)) emptyWorld).plugin
          (Start v1beta1 startOk (some (NewFakeDevicePlugin v1beta1)) emptyWorld).world).world.files := by
  refine ⟨by decide, ?_, by decide, by decide⟩
  intro strike
  cases strike <;> decide

/-- C4: `Stop` on a nil receiver or on a plugin whose server handle is nil
returns nil, emits no event (no removal, no server halt, no channel close)
and leaves the receiver and the world as they were; the plugin returned by
`NewFakeDevicePlugin` has a nil server handle. -/
theorem Stop_never_started (env : StopEnv) (recv : Option FakeDevicePlugin) (w : World)
    (h : recv = none ∨ ∃ m, recv = some m ∧ m.server = none) :
    Stop env recv w
        = { outcome := Outcome.returned none, plugin := recv, world := w, trace := [] }
    ∧ ∀ api : PluginAPI, (NewFakeDevicePlugin api).server = none := by
  refine ⟨?_, fun _ => rfl⟩
  rcases h with h | ⟨m, h, hs⟩
  · subst h
    rfl
  · subst h
    simp [Stop, hs]

/-- Witness for C4: the plugin as constructed, with a socket file of the
same name already on disk. -/
theorem Stop_never_started_witness :
    ((some (NewFakeDevicePlugin v1beta1) = none
        ∨ ∃ m, some (NewFakeDevicePlugin v1beta1) = some m ∧ m.server = none))
    ∧ (Stop { closeUnlinks := true, remove := none } (some (NewFakeDevicePlugin v1beta1))
          { files := [SocketPath v1beta1], chans := [], servers := [] }
        = { outcome := Outcome.returned none, plugin := some (NewFakeDevicePlugin v1beta1),
            world := { files := [SocketPath v1beta1], chans := [], servers := [] },
            trace := [] }
      ∧ ∀ api : PluginAPI, (NewFakeDevicePlugin api).server = none) :=
  ⟨Or.inr ⟨NewFakeDevicePlugin v1beta1, rfl, rfl⟩,
    Stop_never_started { closeUnlinks := true, remove := none }
      (some (NewFakeDevicePlugin v1beta1))
      { files := [SocketPath v1beta1], chans := [], servers := [] }
      (Or.inr ⟨NewFakeDevicePlugin v1beta1, rfl, rfl⟩)⟩

/-- C5, what the code does: `Start` never returns a non-nil error; when the
self-check dial, the registration dial or the `Register` call fails, the
last thing `Start` does is `log.Fatalf`, which ends the process. -/
theorem Start_fault_ends_process :
    (∀ (api : PluginAPI) (env : StartEnv) (recv : Option FakeDevicePlugin) (w : World)
        (e : Error), (Start api env recv w).outcome ≠ Outcome.returned (some e))
    ∧ (∀ (api : PluginAPI) (m : FakeDevicePlugin) (w : World) (e : Error),
        (Start api { startOk with selfDial := some e } (some m) w).outcome = Outcome.exited
        ∧ (Start api { startOk with kubeletDial := some e } (some m) w).outcome = Outcome.exited
        ∧ (Start api { startOk with registerCall := some e } (some m) w).outcome
            = Outcome.exited)
    ∧ (Start v1beta1 { startOk with selfDial := some (Error.other 110) }
          (some (NewFakeDevicePlugin v1beta1)) emptyWorld).trace.getLast? = some Event.logFatalf
    ∧ (Start v1beta1 { startOk with kubeletDial := some (Error.other 111) }
          (some (NewFakeDevicePlugin v1beta1)) emptyWorld).trace.getLast? = some Event.logFatalf
    ∧ (Start v1beta1 { startOk with registerCall := some (Error.other 5) }
          (some (NewFakeDevicePlugin v1beta1)) emptyWorld).trace.getLast? = some Event.logFatalf := by
  refine ⟨Start_no_error, ?_, by decide, by decide, by decide⟩
  intro api m w e
  exact ⟨Start_exited_of_fault api _ m w (Or.inl (by simp)),
    Start_exited_of_fault api _ m w (Or.inr (Or.inl (by simp))),
    Start_exited_of_fault api _ m w (Or.inr (Or.inr (by simp)))⟩

/-! ## Order of the events of `Start` -/

theorem split_extends (P : Event → Bool) (A B pre post : List Event) (e : Event)
    (hA : ∀ x ∈ A, P x = false) (he : P e = true) (h : A ++ B = pre ++ e :: post) :
    ∃ rest, pre = A ++ rest := by
  rcases List.append_eq_append_iff.mp h with ⟨a, ha, _⟩ | ⟨c, hc, hc2⟩
  · exact ⟨a, ha⟩
  · cases c with
    | nil => exact ⟨[], by simpa using hc.symm⟩
    | cons x c =>
      simp only [List.cons_append, List.cons.injEq] at hc2
      have hx : x ∈ A := by rw [hc]; simp
      have := hA x hx
      rw [← hc2.1, he] at this
      exact absurd this (by simp)

theorem serve_no_registration (env : StartEnv) (m : FakeDevicePlugin) (w : World) :
    ∀ e ∈ (serve env m w).2.2, e.isRegistration = false := by
  simp only [serve]
  split
  · simp [Event.isRegistration]
  · split <;> simp [Event.isRegistration]

theorem serve_ok_trace (env : StartEnv) (m : FakeDevicePlugin) (w : World)
    (h : (serve env m w).1 = none) :
    (serve env m w).2.2
      = [Event.osRemove m.socket (osRemove env.staleRemove w.files m.socket).2,
         Event.listen m.socket none, Event.registerDevicePluginServer m.server,
         Event.goServe m.server m.socket, Event.selfDial m.socket none,
         Event.connClose m.socket] := by
  simp only [serve] at h ⊢
  split at h
  · simp at h
  · rename_i hl
    split at h
    · simp at h
    · rename_i hd
      simp [hl, hd]

theorem register_events (api : PluginAPI) (env : StartEnv) (m : FakeDevicePlugin) :
    ∀ e ∈ (register api env m).2,
      (∀ p err, e ≠ Event.listen p err) ∧ (∀ p err, e ≠ Event.selfDial p err) := by
  simp only [register]
  split
  · simp
  · split <;> simp

/-- C7: in the events of every `Start`, each registration event (the dial
of the resource manager, the `Register` call) comes after a successful
`net.Listen` on the socket path, a successful self-check dial and the close
of that connection, in this order; and when the bind or the self-check dial
fails, `Start` produces no registration event at all. -/
theorem Start_registers_after_self_check (api : PluginAPI) (env : StartEnv)
    (m : FakeDevicePlugin) (w : World) :
    (∀ pre e post, (Start api env (some m) w).trace = pre ++ e :: post →
        e.isRegistration = true →
        List.Sublist
          [Event.listen m.socket none, Event.selfDial m.socket none, Event.connClose m.socket]
          pre)
    ∧ (∀ err, (Event.listen m.socket (some err) ∈ (Start api env (some m) w).trace
          ∨ Event.selfDial m.socket (some err) ∈ (Start api env (some m) w).trace) →
        ∀ e ∈ (Start api env (some m) w).trace, e.isRegistration = false) := by
  cases hdue : fatalDue w.servers with
  | true =>
    have hall := (Start_due api env m w hdue).2
    refine ⟨?_, fun _ _ => hall⟩
    intro pre e post hsplit hre
    have : e ∈ (Start api env (some m) w).trace := by rw [hsplit]; simp
    rw [hall e this] at hre
    exact absurd hre (by simp)
  | false =>
  have hno := serve_no_registration env
    { m with server := some w.servers.length, stop := some w.chans.length }
    { w with servers := w.servers ++ [true], chans := w.chans ++ [true] }
  have hreg := register_events api env
    { m with server := some w.servers.length, stop := some w.chans.length }
  cases hs : serve env
    { m with server := some w.servers.length, stop := some w.chans.length }
    { w with servers := w.servers ++ [true], chans := w.chans ++ [true] } with
  | mk serr rest1 =>
  obtain ⟨w2, t1⟩ := rest1
  rw [hs] at hno
  cases serr with
  | some err1 =>
    have htr : (Start api env (some m) w).trace
        = [Event.newServer w.servers.length, Event.makeChan w.chans.length] ++ t1
            ++ [Event.logFatalf] := by
      simp [Start, hs, hdue]
    have hall : ∀ e ∈ (Start api env (some m) w).trace, e.isRegistration = false := by
      intro e he
      rw [htr] at he
      simp only [List.mem_append, List.mem_cons, List.mem_singleton, List.not_mem_nil,
        or_false] at he
      rcases he with (he | he) | he
      · rcases he with he | he <;> subst he <;> rfl
      · exact hno e he
      · subst he; rfl
    refine ⟨?_, fun _ _ => hall⟩
    intro pre e post hsplit hre
    have : e ∈ (Start api env (some m) w).trace := by rw [hsplit]; simp
    rw [hall e this] at hre
    exact absurd hre (by simp)
  | none =>
    have ht1 := serve_ok_trace env
      { m with server := some w.servers.length, stop := some w.chans.length }
      { w with servers := w.servers ++ [true], chans := w.chans ++ [true] } (by rw [hs])
    rw [hs] at ht1
    simp only at ht1
    obtain ⟨B, htr⟩ : ∃ B, (Start api env (some m) w).trace
        = ([Event.newServer w.servers.length, Event.makeChan w.chans.length] ++ t1
            ++ [Event.logPrintf]) ++ B ∧ ∀ e ∈ B,
              (∀ p err, e ≠ Event.listen p err) ∧ (∀ p err, e ≠ Event.selfDial p err) := by
      cases hr : register api env
        { m with server := some w.servers.length, stop := some w.chans.length } with
      | mk rerr t2 =>
      rw [hr] at hreg
      cases rerr with
      | some err2 =>
        refine ⟨t2 ++ [Event.logFatalf], by simp [Start, hs, hr, hdue], ?_⟩
        intro e he
        simp only [List.mem_append, List.mem_singleton] at he
        rcases he with he | he
        · exact hreg e he
        · subst he; simp
      | none =>
        refine ⟨t2 ++ [Event.logPrintf], by simp [Start, hs, hr, hdue], ?_⟩
        intro e he
        simp only [List.mem_append, List.mem_singleton] at he
        rcases he with he | he
        · exact hreg e he
        · subst he; simp
    obtain ⟨htr, hB⟩ := htr
    constructor
    · intro pre e post hsplit hre
      rw [htr] at hsplit
      obtain ⟨rest, hrest⟩ := split_extends Event.isRegistration _ B pre post e
        (by
          intro x hx
          rw [ht1] at hx
          simp only [List.cons_append, List.nil_append, List.mem_cons, List.mem_singleton,
            List.not_mem_nil, or_false] at hx
          rcases hx with hx | hx | hx | hx | hx | hx | hx | hx | hx <;> subst hx <;> rfl)
        hre hsplit
      rw [hrest, ht1]
      refine List.Sublist.trans ?_ (List.sublist_append_left _ rest)
      exact .cons _ (.cons _ (.cons _ (.cons₂ _ (.cons _ (.cons _ (.cons₂ _ (.cons₂ _
        (.cons _ .slnil))))))))
    · intro err hmem
      exfalso
      rw [htr, ht1] at hmem
      rcases hmem with hmem | hmem
      · simp only [List.mem_append, List.mem_cons, List.mem_singleton] at hmem
        rcases hmem with hmem | hmem
        · simp at hmem
        · exact (hB _ hmem).1 _ _ rfl
      · simp only [List.mem_append, List.mem_cons, List.mem_singleton] at hmem
        rcases hmem with hmem | hmem
        · simp at hmem
        · exact (hB _ hmem).2 _ _ rfl

/-- Witness for C7: with every call succeeding, the `Register` call of the
constructed plugin has the three events before it; with the self-check dial
timing out, the events hold no registration event. -/
theorem Start_registers_after_self_check_witness :
    (((Start v1beta1 startOk (some (NewFakeDevicePlugin v1beta1)) emptyWorld).trace
        = [Event.newServer 0, Event.makeChan 0,
            Event.osRemove (SocketPath v1beta1) (some Error.notExist),
            Event.listen (SocketPath v1beta1) none,
            Event.registerDevicePluginServer (some 0),
            Event.goServe (some 0) (SocketPath v1beta1),
            Event.selfDial (SocketPath v1beta1) none,
            Event.connClose (SocketPath v1beta1),
            Event.logPrintf,
            Event.kubeletDial v1beta1.KubeletSocket none]
          ++ Event.registerCall (registerRequest v1beta1 (NewFakeDevicePlugin v1beta1)) none
            :: [Event.connClose v1beta1.KubeletSocket, Event.logPrintf]
      ∧ (Event.registerCall (registerRequest v1beta1 (NewFakeDevicePlugin v1beta1))
            none).isRegistration = true)
      ∧ List.Sublist
          [Event.listen (NewFakeDevicePlugin v1beta1).socket none,
           Event.selfDial (NewFakeDevicePlugin v1beta1).socket none,
           Event.connClose (NewFakeDevicePlugin v1beta1).socket]
          [Event.newServer 0, Event.makeChan 0,
            Event.osRemove (SocketPath v1beta1) (some Error.notExist),
            Event.listen (SocketPath v1beta1) none,
            Event.registerDevicePluginServer (some 0),
            Event.goServe (some 0) (SocketPath v1beta1),
            Event.selfDial (SocketPath v1beta1) none,
            Event.connClose (SocketPath v1beta1),
            Event.logPrintf,
            Event.kubeletDial v1beta1.KubeletSocket none])
    ∧ ((Event.listen (NewFakeDevicePlugin v1beta1).socket (some (Error.other 110))
          ∈ (Start v1beta1 { startOk with selfDial := some (Error.other 110) }
              (some (NewFakeDevicePlugin v1beta1)) emptyWorld).trace
        ∨ Event.selfDial (NewFakeDevicePlugin v1beta1).socket (some (Error.other 110))
          ∈ (Start v1beta1 { startOk with selfDial := some (Error.other 110) }
              (some (NewFakeDevicePlugin v1beta1)) emptyWorld).trace)
      ∧ ∀ e ∈ (Start v1beta1 { startOk with selfDial := some (Error.other 110) }
              (some (NewFakeDevicePlugin v1beta1)) emptyWorld).trace,
          e.isRegistration = false) :=
  ⟨⟨⟨by decide, by decide⟩,
      (Start_registers_after_self_check v1beta1 startOk (NewFakeDevicePlugin v1beta1)
        emptyWorld).1
        [Event.newServer 0, Event.makeChan 0,
          Event.osRemove (SocketPath v1beta1) (some Error.notExist),
          Event.listen (SocketPath v1beta1) none,
          Event.registerDevicePluginServer (some 0),
          Event.goServe (some 0) (SocketPath v1beta1),
          Event.selfDial (SocketPath v1beta1) none,
          Event.connClose (SocketPath v1beta1),
          Event.logPrintf,
          Event.kubeletDial v1beta1.KubeletSocket none]
        (Event.registerCall (registerRequest v1beta1 (NewFakeDevicePlugin v1beta1)) none)
        [Event.connClose v1beta1.KubeletSocket, Event.logPrintf]
        (by decide) (by decide)⟩,
    ⟨Or.inr (by decide),
      (Start_registers_after_self_check v1beta1 { startOk with selfDial := some (Error.other 110) }
        (NewFakeDevicePlugin v1beta1) emptyWorld).2 (Error.other 110) (Or.inr (by decide))⟩⟩


/-! ## The registration request -/

theorem pathBase_socket (dir : String)
    (hdir : dir.data = [] ∨ dir.data.getLast? = some '/') :
    pathBase (dir ++ "fake-dev.sock") = "fake-dev.sock" := by
  rcases hdir with h | h
  · have : dir = "" := String.ext h
    subst this
    decide
  · obtain ⟨init, hinit⟩ := List.getLast?_eq_some_iff.mp h
    have hdata : (dir ++ "fake-dev.sock").data
        = init ++ '/' :: ['f', 'a', 'k', 'e', '-', 'd', 'e', 'v', '.', 's', 'o', 'c', 'k'] := by
      rw [String.data_append, hinit]
      simp
    unfold pathBase
    rw [hdata]
    simp [List.dropWhile, List.takeWhile]

theorem register_requestsSent (api : PluginAPI) (env : StartEnv) (m : FakeDevicePlugin) :
    requestsSent (register api env m).2
      = if env.kubeletDial = none then [registerRequest api m] else [] := by
  simp only [register]
  split
  · rename_i h
    simp [requestsSent, h]
  · rename_i h
    split <;> simp [requestsSent, h]

/-- C8: `register` sends one request when its dial succeeds and none
otherwise; the request carries the protocol version constant, the basename
of the plugin's socket path, the plugin's resource name and an empty options
record. For the plugin of `NewFakeDevicePlugin`, with a plugin directory
that is empty or ends in a slash, the endpoint is `fake-dev.sock` and the
resource name is `demo.org/fake-dev`. -/
theorem register_request_fields (api : PluginAPI) (env : StartEnv) (m : FakeDevicePlugin)
    (hdir : api.DevicePluginPath.data = [] ∨ api.DevicePluginPath.data.getLast? = some '/') :
    requestsSent (register api env m).2
        = (if env.kubeletDial = none then
            [{ Version := api.Version
               Endpoint := pathBase m.socket
               ResourceName := m.resourceName
               Options := some { PreStartRequired := false
                                 GetPreferredAllocationAvailable := false } }]
          else [])
    ∧ requestsSent (register api { env with kubeletDial := none } (NewFakeDevicePlugin api)).2
        = [{ Version := api.Version
             Endpoint := "fake-dev.sock"
             ResourceName := "demo.org/fake-dev"
             Options := some { PreStartRequired := false
                               GetPreferredAllocationAvailable := false } }] := by
  constructor
  · rw [register_requestsSent]
    rfl
  · rw [register_requestsSent]
    simp only [registerRequest, NewFakeDevicePlugin, SocketPath, FakeResourceName, if_true,
      pathBase_socket _ hdir]

/-- Witness for C8: the constants of the `v1beta1` API, whose plugin
directory ends in a slash. -/
theorem register_request_fields_witness :
    (v1beta1.DevicePluginPath.data = [] ∨ v1beta1.DevicePluginPath.data.getLast? = some '/')
    ∧ (requestsSent (register v1beta1 startOk (NewFakeDevicePlugin v1beta1)).2
        = (if startOk.kubeletDial = none then
            [{ Version := v1beta1.Version
               Endpoint := pathBase (NewFakeDevicePlugin v1beta1).socket
               ResourceName := (NewFakeDevicePlugin v1beta1).resourceName
               Options := some { PreStartRequired := false
                                 GetPreferredAllocationAvailable := false } }]
          else [])
      ∧ requestsSent (register v1beta1 { startOk with kubeletDial := none }
            (NewFakeDevicePlugin v1beta1)).2
        = [{ Version := v1beta1.Version
             Endpoint := "fake-dev.sock"
             ResourceName := "demo.org/fake-dev"
             Options := some { PreStartRequired := false
                               GetPreferredAllocationAvailable := false } }]) :=
  ⟨Or.inr (by decide),
    register_request_fields v1beta1 startOk (NewFakeDevicePlugin v1beta1) (Or.inr (by decide))⟩


/-! ## The lifecycle invariant -/

theorem Stop_nil_server (env : StopEnv) (m : FakeDevicePlugin) (w : World)
    (hs : m.server = none) :
    Stop env (some m) w
      = { outcome := Outcome.returned none, plugin := some m, world := w, trace := [] } := by
  simp [Stop, hs]

theorem Start_good (api : PluginAPI) (env : StartEnv) (m : FakeDevicePlugin) (w : World) :
    (Proc.after (Start api env (some m) w)).Good := by
  cases ho : (Start api env (some m) w).outcome with
  | panicked => exact absurd ho (Start_not_panicked api env m w)
  | exited => simp [Proc.after, ho, Proc.Good]
  | returned err =>
    cases err with
    | some e => exact absurd ho (Start_no_error api env (some m) w e)
    | none =>
      have h := Start_returned api env m w ho
      simp only [Proc.after, ho, h.1, Proc.Good, Inv, h.2.2.1]
      simp

theorem Stop_good (env : StopEnv) (m : FakeDevicePlugin) (w : World) (hinv : Inv m w) :
    (Proc.after (Stop env (some m) w)).Good := by
  cases hs : m.server with
  | none =>
    rw [Stop_nil_server env m w hs]
    exact hinv
  | some srv =>
    cases hc : m.stop with
    | none =>
      have := hinv.1.mpr hc
      rw [hs] at this
      exact absurd this (by simp)
    | some ch =>
      rcases Stop_started env m w srv ch hs hc (hinv.2 ch hc) with h | ⟨code, h⟩ | h
      · simp only [Proc.after, h.2.1, h.2.2.1, Proc.Good, Inv]
        simp
      · simp only [Proc.after, h.2.1, h.2.2.1, Proc.Good, Inv, h.2.2.2.1]
        exact hinv
      · simp [Proc.after, h.1, Proc.Good]

theorem exec_good (api : PluginAPI) (p : Proc) (c : Call) (hp : p.Good) :
    (exec api p c).Good := by
  cases p with
  | exited => cases c <;> exact hp
  | panicked => exact absurd hp (by simp [Proc.Good])
  | running recv w =>
    cases recv with
    | none => exact absurd hp (by simp [Proc.Good])
    | some m =>
      cases c with
      | start env => exact Start_good api env m w
      | stop env => exact Stop_good env m w hp
      | serveFatal =>
        simp only [exec]
        split
        · trivial
        · exact hp

theorem execAll_good (api : PluginAPI) (calls : List Call) :
    ∀ p : Proc, p.Good → (execAll api p calls).Good := by
  induction calls with
  | nil => intro p hp; exact hp
  | cons c rest ih =>
    intro p hp
    exact ih _ (exec_good api p c hp)

theorem Stop_not_panicked (env : StopEnv) (m : FakeDevicePlugin) (w : World)
    (hinv : Inv m w) : (Stop env (some m) w).outcome ≠ Outcome.panicked := by
  intro hp
  have := Stop_good env m w hinv
  simp [Proc.after, hp, Proc.Good] at this

theorem Stop_returned_nil_server (env : StopEnv) (m : FakeDevicePlugin) (w : World)
    (hinv : Inv m w) (h : (Stop env (some m) w).outcome = Outcome.returned none) :
    ∃ m2, (Stop env (some m) w).plugin = some m2 ∧ m2.server = none := by
  cases hs : m.server with
  | none =>
    rw [Stop_nil_server env m w hs]
    exact ⟨m, rfl, hs⟩
  | some srv =>
    cases hc : m.stop with
    | none =>
      have := hinv.1.mpr hc
      rw [hs] at this
      exact absurd this (by simp)
    | some ch =>
      rcases Stop_started env m w srv ch hs hc (hinv.2 ch hc) with h2 | ⟨code, h2⟩ | h2
      · exact ⟨_, h2.2.2.1, rfl⟩
      · rw [h2.2.1] at h
        simp at h
      · rw [h2.1] at h
        simp at h

/-- C10: in every state reached from the constructed plugin by a sequence
of `Start` and `Stop` calls (a fatal log ends the process), no call has
panicked, the server handle is nil exactly when the stop channel is nil, a
stop channel the plugin holds is open, `Stop` cannot panic there, and a
`Stop` that follows a `Stop` which returned nil returns nil, emits no event
and changes nothing. -/
theorem lifecycle_invariant (api : PluginAPI) (w0 : World) (calls : List Call) :
    execAll api (Proc.running (some (NewFakeDevicePlugin api)) w0) calls ≠ Proc.panicked
    ∧ ∀ recv w,
        execAll api (Proc.running (some (NewFakeDevicePlugin api)) w0) calls
            = Proc.running recv w →
        (∃ m, recv = some m ∧ (m.server = none ↔ m.stop = none)
            ∧ ∀ ch, m.stop = some ch → w.chans.get? ch = some true)
        ∧ (∀ env : StopEnv, (Stop env recv w).outcome ≠ Outcome.panicked)
        ∧ (∀ env env2 : StopEnv, (Stop env recv w).outcome = Outcome.returned none →
            Stop env2 (Stop env recv w).plugin (Stop env recv w).world
              = { outcome := Outcome.returned none, plugin := (Stop env recv w).plugin,
                  world := (Stop env recv w).world, trace := [] }) := by
  have hgood := execAll_good api calls (Proc.running (some (NewFakeDevicePlugin api)) w0)
    (by simp [Proc.Good, Inv, NewFakeDevicePlugin])
  constructor
  · intro h
    rw [h] at hgood
    exact hgood
  · intro recv w h
    rw [h] at hgood
    cases recv with
    | none => exact absurd hgood (by simp [Proc.Good])
    | some m =>
      have hinv : Inv m w := hgood
      refine ⟨⟨m, rfl, hinv.1, hinv.2⟩, fun env => Stop_not_panicked env m w hinv, ?_⟩
      intro env env2 hret
      obtain ⟨m2, hm2, hs2⟩ := Stop_returned_nil_server env m w hinv hret
      rw [hm2]
      exact Stop_nil_server env2 m2 _ hs2

/-- Witness for C10: after one successful `Start` of the constructed plugin,
a `Stop` returns nil and a second `Stop` is a no-op. -/
theorem lifecycle_invariant_witness :
    execAll v1beta1 (Proc.running (some (NewFakeDevicePlugin v1beta1)) emptyWorld)
        [Call.start startOk] = Proc.running (some startedPlugin) startedWorld
    ∧ (Stop { closeUnlinks := true, remove := none } (some startedPlugin) startedWorld).outcome
        = Outcome.returned none
    ∧ Stop { closeUnlinks := false, remove := none }
          (Stop { closeUnlinks := true, remove := none } (some startedPlugin) startedWorld).plugin
          (Stop { closeUnlinks := true, remove := none } (some startedPlugin) startedWorld).world
        = { outcome := Outcome.returned none,
            plugin := (Stop { closeUnlinks := true, remove := none } (some startedPlugin)
              startedWorld).plugin,
            world := (Stop { closeUnlinks := true, remove := none } (some startedPlugin)
              startedWorld).world,
            trace := [] } :=
  ⟨by decide, by decide,
    ((lifecycle_invariant v1beta1 emptyWorld [Call.start startOk]).2
        (some startedPlugin) startedWorld (by decide)).2.2
      { closeUnlinks := true, remove := none } { closeUnlinks := false, remove := none }
      (by decide)⟩

/-! ## No restart after `Stop` -/

theorem fatalDue_set (servers : List Bool) (srv : Nat) (h : srv < servers.length) :
    fatalDue (servers.set srv false) = true := by
  simp only [fatalDue, decide_eq_true_eq]
  exact List.mem_iff_getElem?.mpr ⟨srv, by simp [h]⟩

/-- The states that follow a `Stop` which halted the server and cleared the
handles: the process has ended, or it runs with both handles nil while the
fatal log of the `serve` goroutine is due. -/
theorem execAll_terminated (api : PluginAPI) (calls : List Call) :
    ∀ p : Proc,
      (p = Proc.exited
        ∨ ∃ m w, p = Proc.running (some m) w ∧ m.server = none ∧ m.stop = none
            ∧ fatalDue w.servers = true) →
      (execAll api p calls = Proc.exited
        ∨ ∃ m w, execAll api p calls = Proc.running (some m) w ∧ m.server = none
            ∧ m.stop = none ∧ fatalDue w.servers = true) := by
  induction calls with
  | nil => intro p hp; exact hp
  | cons c rest ih =>
    intro p hp
    apply ih
    rcases hp with hp | ⟨m, w, hp, hs, hc, hdue⟩
    · subst hp
      cases c <;> exact Or.inl rfl
    · subst hp
      cases c with
      | start env =>
        left
        simp [exec, Proc.after, (Start_due api env m w hdue).1]
      | stop env =>
        right
        refine ⟨m, w, ?_, hs, hc, hdue⟩
        simp [exec, Proc.after, Stop_nil_server env m w hs]
      | serveFatal =>
        left
        simp [exec, hdue]

/-- C9: on a serving instance (server handle set and referring to a server
made earlier, stop channel set and open) a `Stop` that returns nil leaves
the instance terminated: both handles nil, no file at the socket path, the
stop channel closed, the server halted. Halting the server makes the fatal
log of its `serve` goroutine due, so every subsequent `Start` ends with the
process and none returns; and whatever calls follow, the process has ended
or still runs with both handles nil: the instance is never serving
again. -/
theorem Start_after_Stop_no_restart (api : PluginAPI) (envStop : StopEnv)
    (m : FakeDevicePlugin) (w : World) (srv ch : Nat)
    (hs : m.server = some srv) (hc : m.stop = some ch) (ho : w.chans.get? ch = some true)
    (hsrv : srv < w.servers.length)
    (hStop : (Stop envStop (some m) w).outcome = Outcome.returned none) :
    (Stop envStop (some m) w).plugin = some { m with server := none, stop := none }
    ∧ m.socket ∉ (Stop envStop (some m) w).world.files
    ∧ (Stop envStop (some m) w).world.chans.get? ch = some false
    ∧ (Stop envStop (some m) w).world.servers.get? srv = some false
    ∧ (∀ env : StartEnv,
        (Start api env (Stop envStop (some m) w).plugin (Stop envStop (some m) w).world).outcome
          = Outcome.exited)
    ∧ (∀ calls : List Call,
        execAll api
            (Proc.running (Stop envStop (some m) w).plugin (Stop envStop (some m) w).world)
            calls = Proc.exited
        ∨ ∃ m2 w2,
            execAll api
                (Proc.running (Stop envStop (some m) w).plugin (Stop envStop (some m) w).world)
                calls = Proc.running (some m2) w2
            ∧ m2.server = none ∧ m2.stop = none) := by
  have hch : ch < w.chans.length := (List.get?_eq_some.mp ho).1
  rcases Stop_started envStop m w srv ch hs hc ho with h | ⟨code, h⟩ | h
  · have hdue : fatalDue (Stop envStop (some m) w).world.servers = true := by
      rw [h.2.2.2.2.2.1]
      exact fatalDue_set w.servers srv hsrv
    refine ⟨h.2.2.1, h.2.2.2.1, ?_, ?_, ?_, ?_⟩
    · rw [h.2.2.2.2.1]
      simp [hch]
    · rw [h.2.2.2.2.2.1]
      simp [hsrv]
    · intro env
      rw [h.2.2.1]
      exact (Start_due api env _ _ hdue).1
    · intro calls
      rw [h.2.2.1]
      rcases execAll_terminated api calls
          (Proc.running (some { m with server := none, stop := none })
            (Stop envStop (some m) w).world)
          (Or.inr ⟨_, _, rfl, rfl, rfl, hdue⟩) with he | ⟨m2, w2, he, h2s, h2c, _⟩
      · exact Or.inl he
      · exact Or.inr ⟨m2, w2, he, h2s, h2c⟩
  · rw [h.2.1] at hStop
    simp at hStop
  · rw [h.1] at hStop
    simp at hStop

/-- Witness for C9 on the plugin as it is after one successful `Start`: it
is stopped with success, and a `Start` in which every external call would
succeed ends the process. -/
theorem Start_after_Stop_no_restart_witness :
    (startedPlugin.server = some 0 ∧ startedPlugin.stop = some 0
      ∧ startedWorld.chans.get? 0 = some true ∧ 0 < startedWorld.servers.length
      ∧ (Stop { closeUnlinks := true, remove := none } (some startedPlugin) startedWorld).outcome
          = Outcome.returned none)
    ∧ (Start v1beta1 startOk
          (Stop { closeUnlinks := true, remove := none } (some startedPlugin) startedWorld).plugin
          (Stop { closeUnlinks := true, remove := none } (some startedPlugin)
            startedWorld).world).outcome = Outcome.exited
    ∧ Start v1beta1 startOk (some (NewFakeDevicePlugin v1beta1)) emptyWorld
      = { outcome := Outcome.returned none, plugin := some startedPlugin, world := startedWorld,
          trace := (Start v1beta1 startOk (some (NewFakeDevicePlugin v1beta1)) emptyWorld).trace } :=
  ⟨⟨rfl, rfl, rfl, by decide, by decide⟩,
    (Start_after_Stop_no_restart v1beta1 { closeUnlinks := true, remove := none }
      startedPlugin startedWorld 0 0 rfl rfl rfl (by decide) (by decide)).2.2.2.2.1 startOk,
    by decide⟩

/-! ## The stream handler and the stop signal -/

theorem lwRun_returned (env : LWEnv) (req : Option Empty)
    (snaps : List (FakeDevicePlugin × World)) (err : Option Error) :
    lwRun env req snaps (LWState.returned err) = (LWState.returned err, []) := by
  induction snaps with
  | nil => rfl
  | cons snap rest ih => simp [lwRun, lwStep, ih]

theorem lwRun_parked_nil (env : LWEnv) (req : Option Empty)
    (snaps : List (FakeDevicePlugin × World)) :
    lwRun env req snaps (LWState.parked none none) = (LWState.parked none none, []) := by
  induction snaps with
  | nil => rfl
  | cons snap rest ih => simp [lwRun, lwStep, chanReady, ih]

theorem lwStep_parked_closed (env : LWEnv) (m : FakeDevicePlugin) (req : Option Empty)
    (w : World) (ch : Nat) (hcl : w.chans.get? ch = some false) :
    lwStep env m req w (LWState.parked (some ch) none) = (LWState.returned none, []) := by
  have hcl2 : w.chans[ch]? = some false := by simpa using hcl
  simp [lwStep, chanReady, hcl2]

/-- C6, as the code has it: an invocation whose send succeeded is parked in
`select` on the channel values it read from `m.stop` and `m.health`; a
`Stop` that returns nil on a serving plugin closes that stop channel; and an
invocation parked on a closed stop channel (health channel nil) returns nil
at its next step and emits no event, so no push, then or later. -/
theorem parked_handler_returns_on_stop (env : LWEnv) (req : Option Empty) (envStop : StopEnv)
    (m : FakeDevicePlugin) (w : World) (srv ch : Nat)
    (hs : m.server = some srv) (hc : m.stop = some ch) (hh : m.health = none)
    (ho : w.chans.get? ch = some true)
    (hStop : (Stop envStop (some m) w).outcome = Outcome.returned none) :
    (lwRun { env with sendErr := none } req [(m, w), (m, w)] LWState.entry).1
        = LWState.parked (some ch) none
    ∧ (Stop envStop (some m) w).world.chans.get? ch = some false
    ∧ ∀ (m2 : FakeDevicePlugin) (w2 : World) (rest : List (FakeDevicePlugin × World)),
        w2.chans.get? ch = some false →
        lwRun env req ((m2, w2) :: rest) (LWState.parked (some ch) none)
          = (LWState.returned none, []) := by
  refine ⟨by simp [lwRun, lwStep, hc, hh], ?_, ?_⟩
  · rcases Stop_started envStop m w srv ch hs hc ho with h | ⟨code, h⟩ | h
    · rw [h.2.2.2.2.1]
      have hlt : ch < w.chans.length := by
        rcases List.get?_eq_some.mp ho with ⟨hlt, _⟩
        exact hlt
      simp [hlt]
    · rw [h.2.1] at hStop
      simp at hStop
    · rw [h.1] at hStop
      simp at hStop
  · intro m2 w2 rest hcl
    simp only [lwRun, lwStep_parked_closed env m2 req w2 ch hcl, lwRun_returned,
      List.append_nil]

/-- Witness for C6: a handler parked on the stop channel of the started
plugin, and the `Stop` that closes it. -/
theorem parked_handler_returns_on_stop_witness :
    (startedPlugin.server = some 0 ∧ startedPlugin.stop = some 0
      ∧ startedPlugin.health = none ∧ startedWorld.chans.get? 0 = some true
      ∧ (Stop { closeUnlinks := true, remove := none } (some startedPlugin) startedWorld).outcome
          = Outcome.returned none
      ∧ (Stop { closeUnlinks := true, remove := none } (some startedPlugin)
          startedWorld).world.chans.get? 0 = some false)
    ∧ lwRun { sendErr := none, pickStop := false } none
        [(NewFakeDevicePlugin v1beta1,
          (Stop { closeUnlinks := true, remove := none } (some startedPlugin) startedWorld).world)]
        (LWState.parked (some 0) none) = (LWState.returned none, []) :=
  ⟨⟨rfl, rfl, rfl, rfl, by decide, by decide⟩,
    (parked_handler_returns_on_stop { sendErr := none, pickStop := false } none
      { closeUnlinks := true, remove := none } startedPlugin startedWorld 0 0 rfl rfl rfl rfl
      (by decide)).2.2 (NewFakeDevicePlugin v1beta1)
      (Stop { closeUnlinks := true, remove := none } (some startedPlugin) startedWorld).world []
      (by decide)⟩

/-- C6 as stated fails for an invocation started after `Stop`: the started
plugin is stopped with success, which closes channel 0 and sets `m.stop` to
nil again; a `ListAndWatch` invocation started then, whose send succeeds,
pushes the device list and parks on two nil channels, where it stays
whatever happens afterwards: it never returns. -/
theorem ListAndWatch_started_after_Stop :
    Stop { closeUnlinks := true, remove := none } (some startedPlugin) startedWorld
      = { outcome := Outcome.returned none,
          plugin := some (NewFakeDevicePlugin v1beta1),
          world := { files := [], chans := [false], servers := [false] },
          trace := [Event.logPrintf, Event.serverStop 0,
            Event.osRemove (SocketPath v1beta1) (some Error.notExist),
            Event.closeChan (some 0)] }
    ∧ ∀ rest : List (FakeDevicePlugin × World),
        (lwRun { sendErr := none, pickStop := true } none
            ((NewFakeDevicePlugin v1beta1, { files := [], chans := [false], servers := [false] })
              :: (NewFakeDevicePlugin v1beta1,
                  { files := [], chans := [false], servers := [false] }) :: rest)
            LWState.entry).1 = LWState.parked none none
        ∧ pushed (lwRun { sendErr := none, pickStop := true } none
            ((NewFakeDevicePlugin v1beta1, { files := [], chans := [false], servers := [false] })
              :: (NewFakeDevicePlugin v1beta1,
                  { files := [], chans := [false], servers := [false] }) :: rest)
            LWState.entry).2 = [buildDevices MaxDeviceCounts]
        ∧ buildDevices MaxDeviceCounts ≠ [] := by
  refine ⟨by decide, fun rest => ⟨?_, lwRun_entry_pushed _ _ _ _, ?_⟩⟩
  · simp [lwRun, lwStep, NewFakeDevicePlugin, lwRun_parked_nil]
  · intro h
    have := congrArg List.length h
    rw [buildDevices_length] at this
    exact absurd this (by decide)

end DevicePlugin
